import Mathlib

/-!
Verification development for the LangChainTools repository
(src/http_client.py and src/agent_weather_time.py).

The Python code is shallowly embedded:
* Python/JSON values (`resp.json()` results, provider records) are the
  inductive type `PyVal`; `None` is `PyVal.vnone`.
* Operations that can raise (`d[k]`, `l[i]`, `d.get(k)` on a non-dict,
  `len`, `"{x:.1f}"` on a non-number) return `Except PyExc _`.
* Python floats are modelled as rationals; formatting mirrors the
  concrete values exercised by the code and its specification.
* The weather provider (`weather_app`, not part of this source) is a
  parameter `provider : String → PyVal` supplying its response.
* The HTTP retry loop is a recursion over a per-attempt outcome oracle,
  recording every sleep and every issued GET request.
-/

set_option autoImplicit false

namespace LCT

/-- A raised Python exception, as observed by an `except` handler. -/
inductive PyExc where
  | keyError (k : String)
  | indexError (m : String)
  | typeError (m : String)
  | attributeError (m : String)
  | valueError (m : String)
deriving DecidableEq

/-- A single quote character, used for Python `repr` of strings. -/
def sq : String := String.singleton (Char.ofNat 39)

/-- The text of `str(e)` for an exception `e` (best effort; the Python
code only ever embeds this text into a fallback sentence). -/
def PyExc.text : PyExc → String
  | .keyError k => sq ++ k ++ sq
  | .indexError m => m
  | .typeError m => m
  | .attributeError m => m
  | .valueError m => m

/-- Python values as produced by `resp.json()`: `None`, ints, floats
(modelled as rationals), strings, lists and string-keyed dicts. -/
inductive PyVal where
  | vnone
  | vint (i : Int)
  | vfloat (q : ℚ)
  | vstr (s : String)
  | vlist (l : List PyVal)
  | vdict (d : List (String × PyVal))

/-- Key lookup in a (unique-keyed) Python dict. -/
def dictLookup : List (String × PyVal) → String → Option PyVal
  | [], _ => Option.none
  | (k, v) :: rest, key => if k = key then some v else dictLookup rest key

/-- Python `d.get(k)` (default `None`); raises `AttributeError` on a
value that is not a dict. -/
def PyVal.get : PyVal → String → Except PyExc PyVal
  | .vdict d, k => .ok ((dictLookup d k).getD .vnone)
  | _, _ => .error (.attributeError "object has no attribute get")

/-- Python `d.get(k, default)`. -/
def PyVal.getD : PyVal → String → PyVal → Except PyExc PyVal
  | .vdict d, k, dflt => .ok ((dictLookup d k).getD dflt)
  | _, _, _ => .error (.attributeError "object has no attribute get")

/-- Python `d[k]` for a string key: `KeyError` when missing,
`TypeError` when the value is not a dict. -/
def PyVal.getItem : PyVal → String → Except PyExc PyVal
  | .vdict d, k =>
    match dictLookup d k with
    | some v => .ok v
    | Option.none => .error (.keyError k)
  | _, _ => .error (.typeError "object is not subscriptable")

/-- Python `l[i]` for a non-negative int index on a list. -/
def pyIndex : PyVal → Nat → Except PyExc PyVal
  | .vlist l, i =>
    match l.get? i with
    | some v => .ok v
    | Option.none => .error (.indexError "list index out of range")
  | _, _ => .error (.typeError "object is not subscriptable")

/-- Python `len`. -/
def pyLen : PyVal → Except PyExc Nat
  | .vlist l => .ok l.length
  | .vstr s => .ok s.length
  | .vdict d => .ok d.length
  | _ => .error (.typeError "object has no len")

/-- Python truthiness of a value. -/
def truthy : PyVal → Bool
  | .vnone => false
  | .vint i => i != 0
  | .vfloat q => q.num != 0
  | .vstr s => !s.isEmpty
  | .vlist l => !l.isEmpty
  | .vdict d => !d.isEmpty

/-- Whether a value is Python `None` (for `is not None` tests). -/
def isNone : PyVal → Bool
  | .vnone => true
  | _ => false

/-- Python `sep.join(parts)`. -/
def pyJoin (sep : String) : List String → String
  | [] => ""
  | [x] => x
  | x :: y :: ys => x ++ sep ++ pyJoin sep (y :: ys)

/-- Decimal digits of `n` left-padded with zeros to width `k`. -/
def natDigitsPad (n k : Nat) : String :=
  let s := toString n
  String.mk (List.replicate (k - s.length) '0') ++ s

/-- Least exponent `k ≤ 20` with `den ∣ 10 ^ k` (all rationals
appearing in this development are terminating decimals). -/
def findDecExp (den : Nat) : Nat :=
  (((List.range 21).find? fun k => 10 ^ k % den == 0)).getD 20

/-- Rendering of a Python float, `str(x)` style: a sign, the integer
part, a dot, and the fractional digits (`".0"` when integral).
Computed on the reduced numerator and denominator so that it evaluates
inside the kernel. -/
def ratDecimal (q : ℚ) : String :=
  let sgn := if q.num < 0 then "-" else ""
  let d := q.den
  let k := findDecExp d
  let n := q.num.natAbs * 10 ^ k / d
  if k = 0 then sgn ++ toString n ++ ".0"
  else sgn ++ toString (n / 10 ^ k) ++ "." ++ natDigitsPad (n % 10 ^ k) k

mutual

/-- Python `repr` of a value (as used inside container printing). -/
def pyRepr : PyVal → String
  | .vnone => "None"
  | .vint i => toString i
  | .vfloat q => ratDecimal q
  | .vstr s => sq ++ s ++ sq
  | .vlist l => "[" ++ pyJoin ", " (pyReprList l) ++ "]"
  | .vdict d => "\x7b" ++ pyJoin ", " (pyReprDict d) ++ "\x7d"

/-- `repr` of each element of a list. -/
def pyReprList : List PyVal → List String
  | [] => []
  | x :: xs => pyRepr x :: pyReprList xs

/-- `repr` of each `key: value` entry of a dict. -/
def pyReprDict : List (String × PyVal) → List String
  | [] => []
  | (k, v) :: xs => (sq ++ k ++ sq ++ ": " ++ pyRepr v) :: pyReprDict xs

end

/-- Python `str(x)`, as used by f-string interpolation `{x}`. -/
def pyStr : PyVal → String
  | .vstr s => s
  | v => pyRepr v

/-- Rendering of `"{q:.1f}"` for a rational: round to one decimal and
print exactly one fractional digit.  With `q = p / d` the rounded
value `⌊10 q + 1/2⌋` is `⌊(20 p + d) / (2 d)⌋`, computed with integer
floor division so that it evaluates inside the kernel. -/
def fmtOneDecimal (q : ℚ) : String :=
  let n : Int := Int.fdiv (20 * q.num + (q.den : Int)) (2 * (q.den : Int))
  let m := n.natAbs
  (if n < 0 then "-" else "") ++ toString (m / 10) ++ "." ++ toString (m % 10)

/-- Python format spec `"{x:.1f}"`: formats ints and floats, raises
`ValueError` on anything else (including strings and `None`). -/
def format1 : PyVal → Except PyExc String
  | .vint i => .ok (toString i ++ ".0")
  | .vfloat q => .ok (fmtOneDecimal q)
  | _ => .error (.valueError "Unknown format code f")

/-- Python `str.strip` whitespace test (ASCII whitespace). -/
def pyIsSpace (c : Char) : Bool :=
  c = ' ' || c = '\t' || c = '\n' || c = '\r' || c = '\x0b' || c = '\x0c'

/-- Python `s.strip()`: drop leading and trailing whitespace. -/
def pyStrip (s : String) : String :=
  String.mk (((s.toList.dropWhile pyIsSpace).reverse.dropWhile pyIsSpace).reverse)

/-!  ## HTTP Retry Client (src/http_client.py, get_with_retries)  -/

/-- A transport-level successful `requests.Response`: any HTTP status
code counts as transport success. -/
structure HttpResponse where
  statusCode : Nat
  body : String
deriving DecidableEq

/-- What a single `requests.get` attempt does: succeed at the transport
level, raise `requests.ConnectionError`, raise `requests.Timeout`, or
raise some other (uncaught) exception. -/
inductive AttemptOutcome where
  | success (resp : HttpResponse)
  | connError
  | timeoutErr
  | otherError (e : PyExc)

/-- Observable result of the retry loop: the returned value (`None`
when all attempts were exhausted), the argument of every `time.sleep`
call in order, and how many GET requests were issued. -/
structure RetryResult where
  response : Option HttpResponse
  sleeps : List ℚ
  requestCount : Nat
deriving DecidableEq

/-- The loop `for attempt in range(1, retries + 1)` of
`get_with_retries`, started at attempt number `attempt` with
`remaining` iterations left.  On a connection error or timeout with
further attempts remaining it sleeps `backoff_seconds * attempt` and
retries; on the last attempt it breaks and the function returns `None`.
Any other exception propagates. -/
def runAttempts (outcome : Nat → AttemptOutcome) (backoff : ℚ)
    (attempt remaining : Nat) : Except PyExc RetryResult :=
  match remaining with
  | 0 => .ok ⟨Option.none, [], 0⟩
  | Nat.succ r =>
    match outcome attempt with
    | .success resp => .ok ⟨some resp, [], 1⟩
    | .otherError e => .error e
    | .connError =>
      if r = 0 then .ok ⟨Option.none, [], 1⟩
      else
        match runAttempts outcome backoff (attempt + 1) r with
        | .error e => .error e
        | .ok rest => .ok ⟨rest.response, backoff * (attempt : ℚ) :: rest.sleeps, rest.requestCount + 1⟩
    | .timeoutErr =>
      if r = 0 then .ok ⟨Option.none, [], 1⟩
      else
        match runAttempts outcome backoff (attempt + 1) r with
        | .error e => .error e
        | .ok rest => .ok ⟨rest.response, backoff * (attempt : ℚ) :: rest.sleeps, rest.requestCount + 1⟩

/-- `get_with_retries(url, retries=…, backoff_seconds=…)`: run the
attempt loop `retries` times starting at attempt 1 (`range(1, retries+1)`
is empty when `retries ≤ 0`). -/
def get_with_retries (outcome : Nat → AttemptOutcome) (retries : Int)
    (backoff_seconds : ℚ) : Except PyExc RetryResult :=
  runAttempts outcome backoff_seconds 1 retries.toNat

/-- An attempt outcome caught by the retry loop: a connection error or
a timeout. -/
def isNetFailure (o : AttemptOutcome) : Prop :=
  o = AttemptOutcome.connError ∨ o = AttemptOutcome.timeoutErr

/-!  ## Weather tools (src/agent_weather_time.py)  -/

/-- `city.strip() or "неизвестный город"` (line 109 / line 146): the
stripped city, or the placeholder when the stripped city is empty. -/
def normalize_city (city : String) : String :=
  if pyStrip city = "" then "неизвестный город" else pyStrip city

/-- `isinstance(x, dict) and "error" in x`: the provider's error-record
test. -/
def isErrorRecord : PyVal → Bool
  | .vdict d => (dictLookup d "error").isSome
  | _ => false

/-- The interpolated text of `x["error"]` on an error record. -/
def errorText : PyVal → String
  | .vdict d => pyStr ((dictLookup d "error").getD .vnone)
  | _ => "None"

/-- The `try:` block of `get_weather_for_location` (lines 115–128):
subscript accesses, `.get` defaults, one-decimal temperature
formatting, and the comma-joined sentence ending in a period. -/
def weather_try_block (weather : PyVal) : Except PyExc String := do
  let name ← weather.getItem "name"
  let main ← weather.getItem "main"
  let temp ← main.getItem "temp"
  let wlist ← weather.getItem "weather"
  let w0 ← pyIndex wlist 0
  let description ← w0.getItem "description"
  let humidity ← main.get "humidity"
  let windDict ← weather.getD "wind" (.vdict [])
  let wind_speed ← windDict.get "speed"
  let tempStr ← format1 temp
  pure (pyJoin ", "
      (("Текущая погода в " ++ pyStr name ++ ": " ++ tempStr ++ "°C, " ++ pyStr description)
        :: ((if isNone humidity = false then ["влажность " ++ pyStr humidity ++ "%"] else [])
          ++ (if isNone wind_speed = false then ["ветер " ++ pyStr wind_speed ++ " м/с"] else [])))
    ++ ".")

/-- Body of `get_weather_for_location` after the city was normalized
and the provider queried: the error-record branch, then the `try`
block, whose exceptions the `except` clause turns into the
unexpected-format sentence. -/
def get_weather_for_location_core (city_norm : String) (weather : PyVal) :
    Except PyExc String :=
  if isErrorRecord weather then
    .ok ("Не удалось получить погоду для " ++ city_norm ++ ": " ++ errorText weather)
  else
    match weather_try_block weather with
    | .ok s => .ok s
    | .error e => .ok ("Неожиданный формат ответа погоды для " ++ city_norm ++ ": " ++ PyExc.text e)

/-- `get_weather_for_location(city)` (lines 98–130): normalize the
city, query `get_weather_by_city` (the `provider` parameter) with the
normalized city, then render the provider's response. -/
def get_weather_for_location (city : String) (provider : String → PyVal) :
    Except PyExc String :=
  get_weather_for_location_core (normalize_city city) (provider (normalize_city city))

/-!  ## Forecast tool (src/agent_weather_time.py, lines 133–201)  -/

/-- The out-of-range sentence of lines 162–165. -/
def outOfRangeMsg (n : Nat) (day_offset : Int) : String :=
  "OpenWeatherMap вернул прогноз только на " ++ toString n ++ " дней. " ++
    "day_offset=" ++ toString day_offset ++ " выйти за доступный диапазон."

/-- The day label of lines 180–185. -/
def day_label (day_offset : Int) : String :=
  if day_offset = 0 then "сегодня"
  else if day_offset = 1 then "завтра"
  else "через " ++ toString day_offset ++ " дней"

/-- The fields extracted from one daily entry (lines 169–178). -/
structure ItemFields where
  tmin : PyVal
  tmax : PyVal
  tday : PyVal
  desc : PyVal
  humidity : PyVal
  windSpeed : PyVal

/-- Lines 169–178: `item.get("temp") or {}`, its `min`/`max`/`day`,
`item.get("weather") or []` with `weather_list[0].get("description")`
when non-empty (else the literal `"нет описания"`), `humidity` and
`wind_speed`. -/
def item_fields (item : PyVal) : Except PyExc ItemFields := do
  let tempv ← item.get "temp"
  let temp_block := if truthy tempv then tempv else PyVal.vdict []
  let tmin ← temp_block.get "min"
  let tmax ← temp_block.get "max"
  let tday ← temp_block.get "day"
  let weatherv ← item.get "weather"
  let weather_list := if truthy weatherv then weatherv else PyVal.vlist []
  let desc ←
    if truthy weather_list then do
      let w0 ← pyIndex weather_list 0
      w0.get "description"
    else pure (PyVal.vstr "нет описания")
  let humidity ← item.get "humidity"
  let windSpeed ← item.get "wind_speed"
  pure ⟨tmin, tmax, tday, desc, humidity, windSpeed⟩

/-- The temperature fragment of lines 189–192: a min–max range when
both bounds are present, else an "around" figure when the day
temperature is present, else nothing.  Formatting a non-number
raises. -/
def temp_parts (tmin tmax tday : PyVal) : Except PyExc (List String) :=
  if isNone tmin = false && isNone tmax = false then
    match format1 tmin with
    | .error e => .error e
    | .ok a =>
      match format1 tmax with
      | .error e => .error e
      | .ok b => .ok ["температура от " ++ a ++ "°C до " ++ b ++ "°C"]
  else if isNone tday = false then
    match format1 tday with
    | .error e => .error e
    | .ok c => .ok ["температура около " ++ c ++ "°C"]
  else .ok []

/-- Lines 167–199 applied to the selected daily entry: extract the
fields, build the parts list headed by the day-label sentence, and join
with the attribution suffix. -/
def render_item (city_norm : String) (day_offset : Int) (item : PyVal) :
    Except PyExc String :=
  match item_fields item with
  | .error e => .error e
  | .ok f =>
    match temp_parts f.tmin f.tmax f.tday with
    | .error e => .error e
    | .ok tp =>
      .ok (pyJoin ", "
          (("Прогноз для " ++ city_norm ++ " на " ++ day_label day_offset ++ ": " ++ pyStr f.desc)
            :: (tp
              ++ (if isNone f.humidity = false then ["влажность " ++ pyStr f.humidity ++ "%"] else [])
              ++ (if isNone f.windSpeed = false then ["ветер " ++ pyStr f.windSpeed ++ " м/с"] else [])))
        ++ " (по данным OpenWeatherMap One Call).")

/-- The `try:` block of `get_forecast_for_location` (lines 156–199):
`daily_data.get("daily")`, the falsy-daily early return, the
out-of-range early return, the selection `daily_list[day_offset]` and
the rendering of the selected entry. -/
def forecast_try_block (city_norm : String) (day_offset : Int) (daily_data : PyVal) :
    Except PyExc String :=
  match daily_data.get "daily" with
  | .error e => .error e
  | .ok daily_list =>
    if truthy daily_list = false then
      .ok ("Неожиданный формат ежедневного прогноза для " ++ city_norm ++ ".")
    else
      match pyLen daily_list with
      | .error e => .error e
      | .ok n =>
        if (n : Int) ≤ day_offset then
          .ok (outOfRangeMsg n day_offset)
        else
          match pyIndex daily_list day_offset.toNat with
          | .error e => .error e
          | .ok item => render_item city_norm day_offset item

/-- `get_forecast_for_location(city, day_offset=1)` (lines 133–201):
normalize the city, reject negative offsets before any provider call,
query `get_daily_forecast_by_city` (the `provider` parameter), branch
on an error record, then run the `try` block with its `except` clause
turning exceptions into the processing-failure sentence. -/
def get_forecast_for_location (city : String) (day_offset : Int)
    (provider : String → PyVal) : Except PyExc String :=
  if day_offset < 0 then .ok "day_offset не может быть отрицательным."
  else if isErrorRecord (provider (normalize_city city)) then
    .ok ("Не удалось получить ежедневный прогноз для " ++ normalize_city city ++ ": "
      ++ errorText (provider (normalize_city city)))
  else
    match forecast_try_block (normalize_city city) day_offset (provider (normalize_city city)) with
    | .ok s => .ok s
    | .error e =>
      .ok ("Не удалось обработать данные ежедневного прогноза для " ++ normalize_city city
        ++ ": " ++ PyExc.text e)

/-!  ## Time tool and execution context (lines 64–72 and 216–236)  -/

/-- The `AgentContext` dataclass: per-conversation configuration. -/
structure AgentContext where
  user_id : String
  user_name : String := "Пользователь"
  default_city : String := "Иркутск,ru"
  default_timezone : String := "Europe/Moscow"

/-- A reading of the host machine's local clock (`datetime.now()`). -/
structure PyDateTime where
  year : Nat
  month : Nat
  day : Nat
  hour : Nat
  minute : Nat
  second : Nat
  microsecond : Nat

/-- `now.strftime("%d.%m.%Y %H:%M:%S")`. -/
def strftime_dmy_hms (t : PyDateTime) : String :=
  natDigitsPad t.day 2 ++ "." ++ natDigitsPad t.month 2 ++ "." ++ natDigitsPad t.year 4
    ++ " " ++ natDigitsPad t.hour 2 ++ ":" ++ natDigitsPad t.minute 2 ++ ":"
    ++ natDigitsPad t.second 2

/-- `now.replace(microsecond=0).isoformat()`: seconds precision, no
fractional part. -/
def isoformat_seconds (t : PyDateTime) : String :=
  natDigitsPad t.year 4 ++ "-" ++ natDigitsPad t.month 2 ++ "-" ++ natDigitsPad t.day 2
    ++ "T" ++ natDigitsPad t.hour 2 ++ ":" ++ natDigitsPad t.minute 2 ++ ":"
    ++ natDigitsPad t.second 2

/-- `get_current_time(runtime, timezone=None)` (lines 216–236): reads
`datetime.now()` and returns the human-readable and ISO renderings.
The `runtime` context and the `timezone` argument are accepted but
never read. -/
def get_current_time (runtime_ctx : AgentContext) (timezone : Option String)
    (now : PyDateTime) : String :=
  "Локальное системное время: " ++ strftime_dmy_hms now ++ " (ISO: "
    ++ isoformat_seconds now ++ ")"

/-- `get_user_location(runtime)` (lines 204–213): the context's default
city, verbatim. -/
def get_user_location (runtime_ctx : AgentContext) : String :=
  runtime_ctx.default_city

/-!  ## Helper lemmas  -/

/-- When every remaining attempt fails with a connection error or a
timeout, the retry loop finishes without raising and yields no
response. -/
theorem runAttempts_all_fail (outcome : Nat → AttemptOutcome) (b : ℚ) :
    ∀ remaining attempt,
      (∀ i, attempt ≤ i → i < attempt + remaining → isNetFailure (outcome i)) →
      ∃ res, runAttempts outcome b attempt remaining = .ok res ∧
        res.response = Option.none := by
  intro remaining
  induction remaining with
  | zero => exact fun attempt _ => ⟨⟨Option.none, [], 0⟩, rfl, rfl⟩
  | succ r ih =>
    intro attempt h
    have hf : isNetFailure (outcome attempt) := h attempt (le_refl _) (by omega)
    by_cases hr : r = 0
    · subst hr
      rcases hf with hc | ht
      · exact ⟨⟨Option.none, [], 1⟩, by simp [runAttempts, hc], rfl⟩
      · exact ⟨⟨Option.none, [], 1⟩, by simp [runAttempts, ht], rfl⟩
    · obtain ⟨res, hres, hnone⟩ := ih (attempt + 1) (fun i h1 h2 => h i (by omega) (by omega))
      rcases hf with hc | ht
      · exact ⟨⟨res.response, b * (attempt : ℚ) :: res.sleeps, res.requestCount + 1⟩,
          by simp [runAttempts, hc, hr, hres], hnone⟩
      · exact ⟨⟨res.response, b * (attempt : ℚ) :: res.sleeps, res.requestCount + 1⟩,
          by simp [runAttempts, ht, hr, hres], hnone⟩

/-!  ## Claims about the HTTP Retry Client  -/

/-- Claim C1: with `retries = 3` and `backoff_seconds = 1.0`, if the
first two GET attempts raise a connection error and the third succeeds
at the transport level, then the client sleeps `1.0` s after the first
failure and `2.0` s after the second, issues exactly three GET
requests, and returns the third attempt's response immediately,
whatever its HTTP status code. -/
theorem claim_C1 (outcome : Nat → AttemptOutcome) (resp : HttpResponse)
    (h1 : outcome 1 = .connError) (h2 : outcome 2 = .connError)
    (h3 : outcome 3 = .success resp) :
    get_with_retries outcome 3 1 = .ok ⟨some resp, [1, 2], 3⟩ := by
  show runAttempts outcome 1 1 3 = .ok ⟨some resp, [1, 2], 3⟩
  simp [runAttempts, h1, h2, h3]

/-- A concrete attempt oracle: connection errors on attempts 1 and 2,
a transport-level success with HTTP status 503 on attempt 3. -/
def outcomeTwoConnThenServe : Nat → AttemptOutcome := fun n =>
  if n ≤ 2 then .connError else .success ⟨503, "bad gateway"⟩

/-- Witness for C1 at the concrete oracle `outcomeTwoConnThenServe`. -/
theorem claim_C1_witness :
    outcomeTwoConnThenServe 1 = .connError ∧
    outcomeTwoConnThenServe 2 = .connError ∧
    outcomeTwoConnThenServe 3 = .success ⟨503, "bad gateway"⟩ ∧
    get_with_retries outcomeTwoConnThenServe 3 1 =
      .ok ⟨some ⟨503, "bad gateway"⟩, [1, 2], 3⟩ :=
  ⟨rfl, rfl, rfl, claim_C1 outcomeTwoConnThenServe ⟨503, "bad gateway"⟩ rfl rfl rfl⟩

/-- Claim C2: if every attempt up to `retries` raises a connection
error or a timeout, `get_with_retries` neither raises nor returns a
response object: it finishes normally with `None`. -/
theorem claim_C2 (outcome : Nat → AttemptOutcome) (retries : Int) (b : ℚ)
    (hall : ∀ i, 1 ≤ i → i ≤ retries.toNat → isNetFailure (outcome i)) :
    ∃ res, get_with_retries outcome retries b = .ok res ∧
      res.response = Option.none := by
  exact runAttempts_all_fail outcome b retries.toNat 1
    (fun i h1 h2 => hall i h1 (by omega))

/-- Witness for C2: `retries = 2`, both attempts time out. -/
theorem claim_C2_witness :
    ∃ res, get_with_retries (fun _ => AttemptOutcome.timeoutErr) 2 1 = .ok res ∧
      res.response = Option.none :=
  claim_C2 (fun _ => AttemptOutcome.timeoutErr) 2 1 (fun _ _ _ => Or.inr rfl)

/-- Claim C10: for every `retries ≤ 0` the loop body never runs: no GET
request is issued, nothing sleeps, nothing raises, and the function
returns `None` immediately. -/
theorem claim_C10 (outcome : Nat → AttemptOutcome) (b : ℚ) (retries : Int)
    (h : retries ≤ 0) :
    get_with_retries outcome retries b = .ok ⟨Option.none, [], 0⟩ := by
  unfold get_with_retries
  rw [Int.toNat_of_nonpos h]
  rfl

/-- Witness for C10 at `retries = -1`. -/
theorem claim_C10_witness :
    get_with_retries (fun _ => AttemptOutcome.connError) (-1) 1 =
      .ok ⟨Option.none, [], 0⟩ :=
  claim_C10 (fun _ => AttemptOutcome.connError) 1 (-1) (by decide)

/-!  ## Claims about the current-weather tool  -/

/-- The provider record of claim C3; `mkRat 28 5` is the float `5.6`
and `mkRat 16 5` is the float `3.2`. -/
def moscowRecord : PyVal :=
  .vdict [("name", .vstr "Москва"),
          ("main", .vdict [("temp", .vfloat (mkRat 28 5)), ("humidity", .vint 80)]),
          ("weather", .vlist [.vdict [("description", .vstr "облачно")]]),
          ("wind", .vdict [("speed", .vfloat (mkRat 16 5))])]

/-- Claim C3: on the record `{name: "Москва", main: {temp: 5.6,
humidity: 80}, weather: [{description: "облачно"}], wind: {speed:
3.2}}` the tool returns exactly the sentence with the temperature to
one decimal, the humidity and wind segments, and a closing period. -/
theorem claim_C3 :
    get_weather_for_location "Москва" (fun _ => moscowRecord) =
      .ok "Текущая погода в Москва: 5.6°C, облачно, влажность 80%, ветер 3.2 м/с." := by
  rfl

/-- Claim C4: on the error record `{error: "timeout"}` for
`"Париж"` the tool returns a sentence containing both `"Париж"` and
`"timeout"`; and for every city and every provider response whatsoever
the tool finishes normally with a string — it never raises. -/
theorem claim_C4 :
    (∃ pre mid post,
      get_weather_for_location "Париж" (fun _ => .vdict [("error", .vstr "timeout")]) =
        .ok (pre ++ "Париж" ++ mid ++ "timeout" ++ post)) ∧
    (∀ city provider, ∃ s, get_weather_for_location city provider = .ok s) := by
  constructor
  · exact ⟨"Не удалось получить погоду для ", ": ", "", rfl⟩
  · intro city provider
    unfold get_weather_for_location get_weather_for_location_core
    by_cases h : isErrorRecord (provider (normalize_city city))
    · exact ⟨_, by rw [if_pos h]⟩
    · rw [if_neg h]
      cases ht : weather_try_block (provider (normalize_city city)) with
      | ok s => exact ⟨s, rfl⟩
      | error e => exact ⟨_, rfl⟩

/-- Counterexample to claim C5 as stated: the whitespace-only city
`" "` has leading whitespace and strips to the empty string, yet the
tool queries the provider with the placeholder `"неизвестный город"`,
not with the stripped string.  The echoing provider exposes the
string the tool queried it with. -/
theorem claim_C5_counterexample :
    pyStrip " " = "" ∧
    get_weather_for_location " " (fun q => .vdict [("error", .vstr q)]) =
      .ok "Не удалось получить погоду для неизвестный город: неизвестный город" ∧
    normalize_city " " ≠ pyStrip " " := by
  exact ⟨rfl, rfl, by decide⟩

/-- Claim C5 as amended: for every city string whose stripped form is
non-empty the tool queries the provider with exactly the stripped
string; for the empty string — and likewise for any string that strips
to empty — it queries the provider with the literal placeholder
`"неизвестный город"`.  The last conjunct factors the tool through the
normalized city, showing the provider is applied to exactly
`normalize_city city`. -/
theorem claim_C5_amended :
    (∀ city, pyStrip city ≠ "" → normalize_city city = pyStrip city) ∧
    (∀ city, pyStrip city = "" → normalize_city city = "неизвестный город") ∧
    (∀ city provider, get_weather_for_location city provider =
      get_weather_for_location_core (normalize_city city) (provider (normalize_city city))) := by
  refine ⟨fun city h => ?_, fun city h => ?_, fun city provider => rfl⟩
  · unfold normalize_city
    rw [if_neg h]
  · unfold normalize_city
    rw [if_pos h]

/-- Witness for the amended C5: `" Лондон "` strips to a non-empty
string and is normalized to exactly that stripped string; `""` strips
to empty and is normalized to the placeholder. -/
theorem claim_C5_witness :
    (pyStrip " Лондон " ≠ "" ∧ normalize_city " Лондон " = pyStrip " Лондон ") ∧
    (pyStrip "" = "" ∧ normalize_city "" = "неизвестный город") :=
  ⟨⟨by decide, claim_C5_amended.1 " Лондон " (by decide)⟩,
   ⟨rfl, claim_C5_amended.2.1 "" rfl⟩⟩

/-!  ## Claims about the forecast tool  -/

/-- String concatenation is associative (on the list-of-characters
representation). -/
theorem strAppendAssoc (a b c : String) : a ++ b ++ c = a ++ (b ++ c) := by
  cases a with
  | mk la =>
    cases b with
    | mk lb =>
      cases c with
      | mk lc =>
        show String.mk (la ++ lb ++ lc) = String.mk (la ++ (lb ++ lc))
        rw [List.append_assoc]

/-- Joining a non-empty parts list starts with its head. -/
theorem pyJoin_head (sep x : String) (xs : List String) :
    ∃ r, pyJoin sep (x :: xs) = x ++ r := by
  cases xs with
  | nil =>
    refine ⟨"", ?_⟩
    cases x with
    | mk lx =>
      show String.mk lx = String.mk (lx ++ [])
      rw [List.append_nil]
  | cons y ys => exact ⟨sep ++ pyJoin sep (y :: ys), by simp [pyJoin, strAppendAssoc]⟩

/-- In-bounds list access: `get?` returns the `getD` value. -/
theorem get?_eq_getD_of_lt (l : List PyVal) (n : Nat) (h : n < l.length) :
    l.get? n = some (l.getD n PyVal.vnone) := by
  induction l generalizing n with
  | nil => simp at h
  | cons a t ih =>
    cases n with
    | zero => rfl
    | succ m => exact ih m (Nat.lt_of_succ_lt_succ h)

/-- On a provider response `{daily: l}` with non-empty `l`, the `try`
block of the forecast tool reduces to the offset check followed by the
selection and rendering of the entry. -/
theorem forecast_try_block_daily (cn : String) (off : Int) (a : PyVal) (t : List PyVal) :
    forecast_try_block cn off (PyVal.vdict [("daily", PyVal.vlist (a :: t))]) =
      (if ((a :: t).length : Int) ≤ off then .ok (outOfRangeMsg (a :: t).length off)
       else
         match pyIndex (PyVal.vlist (a :: t)) off.toNat with
         | .error e => .error e
         | .ok item => render_item cn off item) := rfl

/-- For a non-negative offset, the forecast tool is the `try` block of
the daily response wrapped in the `except` clause. -/
theorem get_forecast_daily_reduce (city : String) (off : Int) (l : List PyVal)
    (h0 : ¬ off < 0) :
    get_forecast_for_location city off (fun _ => PyVal.vdict [("daily", PyVal.vlist l)]) =
      (match forecast_try_block (normalize_city city) off
          (PyVal.vdict [("daily", PyVal.vlist l)]) with
       | .ok s => .ok s
       | .error e =>
         .ok ("Не удалось обработать данные ежедневного прогноза для " ++ normalize_city city
           ++ ": " ++ PyExc.text e)) := by
  unfold get_forecast_for_location
  rw [if_neg h0]
  rfl

/-- A successful rendering of a daily entry always starts with the
city and the day label. -/
theorem render_item_shape (cn : String) (off : Int) (item : PyVal) (s : String)
    (h : render_item cn off item = .ok s) :
    ∃ rest, s = "Прогноз для " ++ cn ++ " на " ++ day_label off ++ ": " ++ rest := by
  unfold render_item at h
  split at h
  · exact absurd h (by simp)
  · rename_i f hf
    split at h
    · exact absurd h (by simp)
    · rename_i tp ht
      simp only [Except.ok.injEq] at h
      obtain ⟨r, hr⟩ := pyJoin_head ", "
        ("Прогноз для " ++ cn ++ " на " ++ day_label off ++ ": " ++ pyStr f.desc)
        (tp ++ (if isNone f.humidity = false then ["влажность " ++ pyStr f.humidity ++ "%"] else [])
          ++ (if isNone f.windSpeed = false then ["ветер " ++ pyStr f.windSpeed ++ " м/с"] else []))
      refine ⟨pyStr f.desc ++ (r ++ " (по данным OpenWeatherMap One Call)."), ?_⟩
      rw [← h, hr]
      simp [strAppendAssoc]

/-- Whether the character list `needle` is a leading segment of
`hay`. -/
def startsWithCL : List Char → List Char → Bool
  | [], _ => true
  | _ :: _, [] => false
  | a :: as, b :: bs => a = b && startsWithCL as bs

/-- Whether the character list `needle` occurs contiguously inside
`hay`. -/
def hasInfixCL (needle hay : List Char) : Bool :=
  startsWithCL needle hay ||
    match hay with
    | [] => false
    | _ :: t => hasInfixCL needle t

/-- Whether the string `needle` occurs inside the string `hay`. -/
def strContains (hay needle : String) : Bool :=
  hasInfixCL needle.toList hay.toList

/-- Claim C6: a negative `day_offset` is rejected with the fixed
sentence, and the result does not depend on the provider at all — no
provider call can influence it. -/
theorem claim_C6 (city : String) (off : Int) (p q : String → PyVal)
    (h : off < 0) :
    get_forecast_for_location city off p = .ok "day_offset не может быть отрицательным." ∧
    get_forecast_for_location city off p = get_forecast_for_location city off q := by
  unfold get_forecast_for_location
  rw [if_pos h]
  exact ⟨rfl, (if_pos h).symm⟩

/-- Witness for C6 at `day_offset = -1` and two providers that differ
everywhere. -/
theorem claim_C6_witness :
    get_forecast_for_location "Париж" (-1) (fun _ => PyVal.vnone) =
        .ok "day_offset не может быть отрицательным." ∧
    get_forecast_for_location "Париж" (-1) (fun _ => PyVal.vnone) =
      get_forecast_for_location "Париж" (-1) (fun s => PyVal.vstr s) :=
  claim_C6 "Париж" (-1) (fun _ => PyVal.vnone) (fun s => PyVal.vstr s) (by decide)

/-- Counterexample to claim C7 as stated: with an empty daily list
(length 0) and `day_offset = 10` we have `day_offset ≥ length`, yet
the tool returns the unexpected-format sentence — a message that never
mentions the offset `10` and is not the out-of-range message. -/
theorem claim_C7_counterexample :
    get_forecast_for_location "Москва" 10 (fun _ => PyVal.vdict [("daily", PyVal.vlist [])]) =
      .ok "Неожиданный формат ежедневного прогноза для Москва." ∧
    strContains "Неожиданный формат ежедневного прогноза для Москва." "10" = false ∧
    "Неожиданный формат ежедневного прогноза для Москва." ≠ outOfRangeMsg 0 10 := by
  exact ⟨rfl, by decide, by decide⟩

/-- Claim C7 as amended: whenever the provider returns a *non-empty*
daily list and `day_offset` is at least its length, the tool returns
(without raising) the message stating how many days were returned and
that the requested offset is out of range, instead of indexing the
list. -/
theorem claim_C7_amended (city : String) (l : List PyVal) (off : Int)
    (hne : l ≠ []) (hlen : (l.length : Int) ≤ off) :
    get_forecast_for_location city off (fun _ => PyVal.vdict [("daily", PyVal.vlist l)]) =
      .ok (outOfRangeMsg l.length off) := by
  cases l with
  | nil => exact absurd rfl hne
  | cons a t =>
    have h0 : ¬ off < 0 := by
      have hlen' : ((a :: t).length : Int) ≤ off := hlen
      simp only [List.length_cons] at hlen'
      push_cast at hlen'
      omega
    rw [get_forecast_daily_reduce city off (a :: t) h0, forecast_try_block_daily,
      if_pos hlen]

/-- Witness for the amended C7: a daily list of length 8 and
`day_offset = 10` produce exactly the message naming 8 returned days
and the out-of-range offset 10. -/
theorem claim_C7_witness :
    ([PyVal.vdict [], PyVal.vdict [], PyVal.vdict [], PyVal.vdict [],
      PyVal.vdict [], PyVal.vdict [], PyVal.vdict [], PyVal.vdict []] : List PyVal) ≠ [] ∧
    get_forecast_for_location "Москва" 10
        (fun _ => PyVal.vdict [("daily", PyVal.vlist
          [PyVal.vdict [], PyVal.vdict [], PyVal.vdict [], PyVal.vdict [],
           PyVal.vdict [], PyVal.vdict [], PyVal.vdict [], PyVal.vdict []])]) =
      .ok ("OpenWeatherMap вернул прогноз только на 8 дней. " ++
        "day_offset=10 выйти за доступный диапазон.") := by
  refine ⟨by simp, ?_⟩
  rw [claim_C7_amended "Москва"
    [PyVal.vdict [], PyVal.vdict [], PyVal.vdict [], PyVal.vdict [],
     PyVal.vdict [], PyVal.vdict [], PyVal.vdict [], PyVal.vdict []] 10 (by simp) (by decide)]
  rfl

/-- Claim C8: whenever the provider returns a daily list with at least
one entry, the offset is non-negative and in range, and the selected
entry renders successfully, the tool returns exactly that rendering,
whose day label is `"сегодня"` for offset 0, `"завтра"` for offset 1,
and `"через N дней"` for every offset `N ≥ 2`. -/
theorem claim_C8 (city : String) (l : List PyVal) (off : Int) (s : String)
    (h0 : 0 ≤ off) (hlt : off < (l.length : Int))
    (hok : render_item (normalize_city city) off (l.getD off.toNat PyVal.vnone) = .ok s) :
    get_forecast_for_location city off (fun _ => PyVal.vdict [("daily", PyVal.vlist l)]) =
        .ok s ∧
    (∃ rest, s = "Прогноз для " ++ normalize_city city ++ " на " ++ day_label off
      ++ ": " ++ rest) ∧
    day_label 0 = "сегодня" ∧ day_label 1 = "завтра" ∧
    (∀ n : Int, 2 ≤ n → day_label n = "через " ++ toString n ++ " дней") := by
  refine ⟨?_, render_item_shape _ _ _ _ hok, rfl, rfl, fun n hn => ?_⟩
  · cases l with
    | nil => simp at hlt; omega
    | cons a t =>
      have hnn : ¬ off < 0 := by omega
      rw [get_forecast_daily_reduce city off (a :: t) hnn, forecast_try_block_daily,
        if_neg (not_le.mpr hlt)]
      have hidx : pyIndex (PyVal.vlist (a :: t)) off.toNat =
          .ok ((a :: t).getD off.toNat PyVal.vnone) := by
        show (match (a :: t).get? off.toNat with
              | some v => Except.ok v
              | Option.none => Except.error (PyExc.indexError "list index out of range")) =
            Except.ok ((a :: t).getD off.toNat PyVal.vnone)
        rw [get?_eq_getD_of_lt (a :: t) off.toNat (by omega)]
      rw [hidx]
      show (match render_item (normalize_city city) off
              ((a :: t).getD off.toNat PyVal.vnone) with
            | Except.ok s => Except.ok s
            | Except.error e =>
              Except.ok ("Не удалось обработать данные ежедневного прогноза для "
                ++ normalize_city city ++ ": " ++ PyExc.text e)) = Except.ok s
      rw [hok]
  · unfold day_label
    rw [if_neg (by omega), if_neg (by omega)]

/-- Witness for C8: a daily list of six empty entries and offset 5
yield the label `"через 5 дней"` inside the rendered sentence. -/
theorem claim_C8_witness :
    (0 : Int) ≤ 5 ∧
    (5 : Int) < (([PyVal.vdict [], PyVal.vdict [], PyVal.vdict [], PyVal.vdict [],
      PyVal.vdict [], PyVal.vdict []] : List PyVal).length : Int) ∧
    get_forecast_for_location "Казань" 5
        (fun _ => PyVal.vdict [("daily", PyVal.vlist
          [PyVal.vdict [], PyVal.vdict [], PyVal.vdict [], PyVal.vdict [],
           PyVal.vdict [], PyVal.vdict []])]) =
      .ok "Прогноз для Казань на через 5 дней: нет описания (по данным OpenWeatherMap One Call)." := by
  refine ⟨by decide, by decide, ?_⟩
  exact (claim_C8 "Казань"
    [PyVal.vdict [], PyVal.vdict [], PyVal.vdict [], PyVal.vdict [],
     PyVal.vdict [], PyVal.vdict []] 5
    "Прогноз для Казань на через 5 дней: нет описания (по данным OpenWeatherMap One Call)."
    (by decide) (by decide) rfl).1

/-!  ## Claim about the current-time tool  -/

/-- Claim C9: the output of `get_current_time` is a function of the
host-clock reading alone — two calls with the same clock reading but
arbitrary (possibly different) timezone arguments and execution
contexts return equal strings. -/
theorem claim_C9 (ctx1 ctx2 : AgentContext) (tz1 tz2 : Option String)
    (now : PyDateTime) :
    get_current_time ctx1 tz1 now = get_current_time ctx2 tz2 now := rfl

end LCT
